import Mathlib

/-!
Verification of the cisco_apic / apic_aim plugin slice of the
group-based-policy repository: a shallow embedding in Lean 4 of the
attribute validators (gbpservice/neutron/extensions/cisco_apic.py),
the extension driver CRUD hooks
(gbpservice/neutron/plugins/ml2plus/drivers/apic_aim/extension_driver.py),
the Nova polling client (nova_client.py) and the alembic migration
68fcb81878c5, together with theorems settling the stated properties.

Python values are modelled by the inductive `PyVal`; Python exceptions by
`PyExc` (which models the `Exception` hierarchy, i.e. everything an
`except Exception` clause catches); fallible Python code returns
`Except PyExc`.  Error-message strings keep the wording of the source with
the surrounding percent-format quotes dropped.
-/

/-- Model of a Python value as it appears in the API dictionaries handled by
this code: None, bool, int, str, list, dict with string keys (Python dicts
in this code always have unique string keys). -/
inductive PyVal where
  | none
  | bool (b : Bool)
  | int (n : Int)
  | str (s : String)
  | list (xs : List PyVal)
  | dict (kvs : List (String × PyVal))
deriving Repr

/-- Python truthiness: bool(v) for the value forms in `PyVal`. -/
def PyVal.truthy : PyVal → Bool
  | .none => false
  | .bool b => b
  | .int n => n != 0
  | .str s => !s.isEmpty
  | .list xs => !xs.isEmpty
  | .dict kvs => !kvs.isEmpty

/-- Python d.get(k): value for key k, or None when the key is absent. -/
def PyVal.pyGet : PyVal → String → PyVal
  | .dict kvs, k => ((kvs.lookup k).getD .none)
  | _, _ => .none

/-- Python d.get(k, default). -/
def PyVal.pyGetD (v : PyVal) (k : String) (d : PyVal) : PyVal :=
  match v with
  | .dict kvs => ((kvs.lookup k).getD d)
  | _ => d

/-- Whether a dict holds key k (Python k in d). -/
def PyVal.hasKey : PyVal → String → Bool
  | .dict kvs, k => (kvs.lookup k).isSome
  | _, _ => false

/-- Model of the Python Exception hierarchy as raised or caught by this
code.  (`except Exception` catches every constructor here.) -/
inductive PyExc where
  | valueError (msg : String)
  | typeError (msg : String)
  | keyError (key : String)
  | invalidInput (msg : String)
  | notFound
  | other (msg : String)
deriving Repr, DecidableEq

/-- Python subscription d[k]: the value, or KeyError / TypeError. -/
def PyVal.getItem : PyVal → String → Except PyExc PyVal
  | .dict kvs, k =>
      match kvs.lookup k with
      | some v => .ok v
      | Option.none => .error (.keyError k)
  | _, _ => .error (.typeError "object is not subscriptable")

/-- Digits of a decimal literal folded into a Nat. -/
def digitsToNat (cs : List Char) : Nat :=
  cs.foldl (fun a c => a * 10 + (c.toNat - 48)) 0

/-! The Python str operations this code relies on (strip, split, prefix
test, slicing, ordering) are modelled structurally over the character
list, so that every definition evaluates by kernel reduction. -/

/-- Whitespace stripped by Python str.strip / int(). -/
def isPySpace (c : Char) : Bool :=
  c = ' ' || c = '\t' || c = '\n' || c = '\r' || c = '\x0b' || c = '\x0c'

/-- Python s.strip() over the character list. -/
def trimChars (cs : List Char) : List Char :=
  ((cs.dropWhile isPySpace).reverse.dropWhile isPySpace).reverse

/-- Python s.split(sep) for a one-character separator, over characters. -/
def splitOnChar (sep : Char) : List Char → List (List Char)
  | [] => [[]]
  | c :: rest =>
      let r := splitOnChar sep rest
      if c = sep then [] :: r
      else
        match r with
        | g :: gs => (c :: g) :: gs
        | [] => [[c]]

/-- Python s.split(sep), one-character separator, as strings. -/
def strSplitOn (s : String) (sep : Char) : List String :=
  (splitOnChar sep s.toList).map List.asString

/-- Python s.startswith(p). -/
def strStartsWith (s p : String) : Bool :=
  p.toList.isPrefixOf s.toList

/-- Python s[k:]. -/
def strDrop (s : String) (k : Nat) : String :=
  (s.toList.drop k).asString

/-- Model of Python int(s) on a string: optional surrounding whitespace,
optional sign, then a nonempty run of decimal digits. -/
def parseIntString (s : String) : Option Int :=
  match trimChars s.toList with
  | [] => Option.none
  | c :: rest =>
      let signAndDigits : Int × List Char :=
        if c = '-' then (-1, rest)
        else if c = '+' then (1, rest)
        else (1, c :: rest)
      if signAndDigits.2.isEmpty then Option.none
      else if signAndDigits.2.all Char.isDigit then
        some (signAndDigits.1 * (digitsToNat signAndDigits.2 : Int))
      else Option.none

/-- Model of Python int(v): identity on ints, 0/1 on bools, decimal parse
on strings; None, lists and dicts raise (modelled as Option.none, the
callers decide between ValueError and TypeError paths uniformly). -/
def pyToInt : PyVal → Option Int
  | .int n => some n
  | .bool b => some (if b then 1 else 0)
  | .str s => parseIntString s
  | _ => Option.none

/-- Model of Python str(v) as used in percent-formatting of the error
messages (container forms abbreviated; no claim depends on message text
beyond it being nonempty). -/
def pyStr : PyVal → String
  | .none => "None"
  | .bool b => if b then "True" else "False"
  | .int n => toString n
  | .str s => s
  | .list _ => "[...]"
  | .dict _ => "(dict)"

/-! ### cisco_apic.py constants (lines 33-82) -/

def DIST_NAMES : String := "apic:distinguished_names"
def SVI : String := "apic:svi"
def BGP : String := "apic:bgp_enable"
def BGP_ASN : String := "apic:bgp_asn"
def BGP_TYPE : String := "apic:bgp_type"
def VRF_KEY : String := "VRF"
def EXTERNAL_NETWORK : String := "ExternalNetwork"
def BD_KEY : String := "BridgeDomain"
def APIC_MAX_VLAN : Int := 4093
def APIC_MIN_VLAN : Int := 1
def ERSPAN_DEST_IP : String := "dest_ip"
def ERSPAN_FLOW_ID : String := "flow_id"
def ERSPAN_DIRECTION : String := "direction"

/-! ### neutron_lib validators used by cisco_apic.py

These two helpers live in the external neutron_lib library; they are
embedded here from that library's source so the validators above them can
be analysed. -/

/-- neutron_lib validators.validate_non_negative: int(data), message when
the conversion fails (ValueError/TypeError caught) or the value is
negative. -/
def validate_non_negative (data : PyVal) : Option String :=
  match pyToInt data with
  | Option.none => some (pyStr data ++ " is not an integer")
  | some v => if v < 0 then some (pyStr data ++ " should be non-negative") else Option.none

/-- neutron_lib validators._verify_dict_keys: message unless target is a
dict whose key set equals (strict) or contains (non-strict) the expected
keys. -/
def _verify_dict_keys (expected : List String) (target : PyVal) (strict : Bool) :
    Option String :=
  match target with
  | .dict kvs =>
      let provided := kvs.map Prod.fst
      let ok :=
        if strict then
          expected.all (fun k => provided.contains k) &&
            provided.all (fun k => expected.contains k)
        else expected.all (fun k => provided.contains k)
      if ok then Option.none
      else some ("Expected keys not found. Expected: " ++ String.intercalate ", " expected)
  | _ => some ("Invalid input. " ++ pyStr target ++ " must be a dictionary.")

/-! ### cisco_apic.py validators -/

/-- cisco_apic._validate_apic_vlan (lines 87-100): None accepted; otherwise
int(data) is tried, a value in [APIC_MIN_VLAN, APIC_MAX_VLAN] is accepted,
out-of-range values and unconvertible data get a message (ValueError and
TypeError are both caught). -/
def _validate_apic_vlan (data : PyVal) : Option String :=
  match data with
  | .none => Option.none
  | _ =>
      match pyToInt data with
      | some v =>
          if APIC_MIN_VLAN ≤ v ∧ v ≤ APIC_MAX_VLAN then Option.none
          else some ("Invalid value for VLAN: " ++ pyStr data)
      | Option.none => some ("Invalid data format for VLAN: " ++ pyStr data)

/-- cisco_apic._validate_erspan_flow_id (lines 120-128): None accepted;
otherwise msg is first computed by validate_non_negative, then int(data)
is evaluated UNGUARDED for the > 1023 and == 0 comparisons — when data is
not int-convertible this raises instead of returning msg. -/
def _validate_erspan_flow_id (data : PyVal) : Except PyExc (Option String) :=
  match data with
  | .none => .ok Option.none
  | _ =>
      let msg := validate_non_negative data
      match pyToInt data with
      | Option.none =>
          .error (.valueError ("invalid literal for int with base 10: " ++ pyStr data))
      | some v =>
          if v > 1023 then
            .ok (some ("ERSPAN flow ID must be less than 1023 (was " ++ pyStr data ++ ")"))
          else if v = 0 then
            .ok (some ("ERSPAN flow ID must be greater than 0 (was " ++ pyStr data ++ ")"))
          else .ok msg

/-! ### Python equality (==), as used by `erspan_config in erspan_configs`

Python compares dicts by key set and per-key value equality (key order is
irrelevant), and True == 1.  The recursion is driven by a fuel argument
bounded by the term size, a structural encoding that the kernel can
evaluate; dicts in this code have unique keys, for which the
length-plus-lookup comparison is exactly Python dict equality. -/

mutual

/-- Number of scalar and container nodes of a value (fuel bound). -/
def PyVal.size : PyVal → Nat
  | .none => 1
  | .bool _ => 1
  | .int _ => 1
  | .str _ => 1
  | .list xs => 1 + PyVal.sizeList xs
  | .dict kvs => 1 + PyVal.sizeKVs kvs

def PyVal.sizeList : List PyVal → Nat
  | [] => 0
  | x :: xs => PyVal.size x + PyVal.sizeList xs

def PyVal.sizeKVs : List (String × PyVal) → Nat
  | [] => 0
  | (_, v) :: kvs => PyVal.size v + PyVal.sizeKVs kvs

end

/-- Fuel-driven Python ==: scalars with True == 1, lists pointwise, dicts
by equal size and per-key lookup. -/
def pyBeqFuel : Nat → PyVal → PyVal → Bool
  | 0, _, _ => false
  | fuel + 1, a, b =>
      match a, b with
      | .none, .none => true
      | .bool x, .bool y => x == y
      | .bool x, .int n => (if x then (1 : Int) else 0) == n
      | .int n, .bool y => n == (if y then (1 : Int) else 0)
      | .int x, .int y => x == y
      | .str x, .str y => x == y
      | .list xs, .list ys =>
          xs.length == ys.length &&
            (List.zip xs ys).all (fun p => pyBeqFuel fuel p.1 p.2)
      | .dict xs, .dict ys =>
          xs.length == ys.length &&
            xs.all (fun kv =>
              match ys.lookup kv.1 with
              | some w => pyBeqFuel fuel kv.2 w
              | Option.none => false)
      | _, _ => false

/-- Python a == b on the modelled values (the fuel bound always suffices:
every recursive step descends into a subterm of a). -/
def pyEq (a b : PyVal) : Bool :=
  pyBeqFuel (PyVal.size a + PyVal.size b) a b

/-! ### cisco_apic._validate_erspan_configs (lines 131-162)

The dest_ip field is checked by the external neutron_lib
validate_ip_address; the embedding takes that validator as the parameter
`ipValid`.  `validate_ip_address_v4` below is a concrete model of it,
restricted to IPv4 dotted-quad strings, used to instantiate witnesses. -/

def ERSPAN_EXPECTED_KEYS : List String := [ERSPAN_DEST_IP, ERSPAN_FLOW_ID]

/-- The for-loop of _validate_erspan_configs; acc plays erspan_configs. -/
def erspanConfigsLoop (ipValid : PyVal → Option String) :
    List PyVal → List PyVal → Except PyExc (Option String)
  | [], _ => .ok Option.none
  | c :: rest, acc =>
      match _verify_dict_keys ERSPAN_EXPECTED_KEYS c false with
      | some m => .ok (some m)
      | Option.none =>
          match c.getItem ERSPAN_FLOW_ID with
          | .error e => .error e
          | .ok fid =>
              match _validate_erspan_flow_id fid with
              | .error e => .error e
              | .ok (some m) => .ok (some m)
              | .ok Option.none =>
                  match c.getItem ERSPAN_DEST_IP with
                  | .error e => .error e
                  | .ok dip =>
                      match ipValid dip with
                      | some m => .ok (some m)
                      | Option.none =>
                          if acc.any (fun x => pyEq c x) then
                            .ok (some ("Duplicate ERSPAN config " ++ pyStr c))
                          else erspanConfigsLoop ipValid rest (acc ++ [c])

/-- cisco_apic._validate_erspan_configs: non-list data gets a message;
list entries are checked for required keys, flow id, dest ip, and
duplicates (Python dict equality against all earlier entries). -/
def _validate_erspan_configs (ipValid : PyVal → Option String) (data : PyVal) :
    Except PyExc (Option String) :=
  match data with
  | .list xs => erspanConfigsLoop ipValid xs []
  | _ => .ok (some ("Invalid data format for ERSPAN config: " ++ pyStr data))

/-- Modelled from the external neutron_lib validate_ip_address, restricted
to IPv4 dotted-quad strings (a nonempty run of at most 3 digits with value
at most 255 per octet); everything else gets a message. -/
def validate_ip_address_v4 (v : PyVal) : Option String :=
  match v with
  | .str s =>
      match strSplitOn s '.' with
      | [a, b, c, d] =>
          if [a, b, c, d].all (fun o =>
              !o.isEmpty && o.toList.all Char.isDigit && o.length ≤ 3 &&
                digitsToNat o.toList ≤ 255) then
            Option.none
          else some (s ++ " is not a valid IP address")
      | _ => some (s ++ " is not a valid IP address")
  | _ => some (pyStr v ++ " is not a valid IP address")

/-! ### extension_driver.process_create_address_scope (lines 374-397)

The address-scope mapping table lives in the db mixin that is not part of
this source slice; it is modelled from the spec (section 6: auxiliary
tables read and written by the driver) as a list of mapping rows, queried
by VRF and appended to.  The aim library's VRF.from_dn is modelled from
the ACI DN syntax for a VRF. -/

/-- An aim VRF resource (identity attributes only). -/
structure VRFRes where
  tenant_name : String
  name : String
deriving Repr, DecidableEq

/-- Modelled from the external aim library: VRF.from_dn parses a DN of the
form uni/tn-TENANT/ctx-NAME; any other string raises
InvalidDNForAciResource (Option.none here). -/
def VRFRes.from_dn (dn : String) : Option VRFRes :=
  match strSplitOn dn '/' with
  | ["uni", t, c] =>
      if strStartsWith t "tn-" && strStartsWith c "ctx-" then
        some ⟨strDrop t 3, strDrop c 4⟩
      else Option.none
  | _ => Option.none

/-- A row of the address-scope mapping table: the mapped scope, its VRF,
whether the VRF is owned, and the ip_version of the mapped address scope
(mapping.address_scope.ip_version in the source). -/
structure AddressScopeMapping where
  scope_id : String
  vrf : VRFRes
  vrf_owned : Bool
  ip_version : Int
deriving Repr, DecidableEq

/-- Modelled from the spec: the db mixin query returning the mapping rows
whose VRF equals the given one. -/
def _get_address_scope_mappings_for_vrf (db : List AddressScopeMapping)
    (vrf : VRFRes) : List AddressScopeMapping :=
  db.filter (fun m => m.vrf = vrf)

/-- Modelled from the spec: the db mixin insert of a new mapping row. -/
def _add_address_scope_mapping (db : List AddressScopeMapping)
    (scope_id : String) (vrf : VRFRes) (vrf_owned : Bool) (ip_version : Int) :
    List AddressScopeMapping :=
  db ++ [⟨scope_id, vrf, vrf_owned, ip_version⟩]

/-- The for-loop over the mappings for the VRF: raises InvalidInput at the
first mapping with the requested ip_version, otherwise tracks vrf_owned of
the last mapping seen (initially False). -/
def checkVrfMappings (dn : String) (ipv : Int) :
    List AddressScopeMapping → Bool → Except PyExc Bool
  | [], owned => .ok owned
  | m :: rest, _ =>
      if m.ip_version = ipv then
        .error (.invalidInput
          ("VRF " ++ dn ++ " is already in use by address-scope " ++ m.scope_id))
      else checkVrfMappings dn ipv rest m.vrf_owned

/-- extension_driver.process_create_address_scope.  `ip_version` stands for
data[ip_version] (always an integer in address-scope create data, per the
framework schema); `result_id` is result[id].  Returns the updated mapping
table.  A present DN that is not a string would make from_dn raise an
uncaught attribute error in Python, modelled as a TypeError. -/
def process_create_address_scope (db : List AddressScopeMapping) (data : PyVal)
    (ip_version : Int) (result_id : String) :
    Except PyExc (List AddressScopeMapping) :=
  if (data.pyGet DIST_NAMES).truthy && ((data.pyGet DIST_NAMES).pyGet VRF_KEY).truthy then
    match (data.pyGet DIST_NAMES).pyGet VRF_KEY with
    | .str dn =>
        match VRFRes.from_dn dn with
        | Option.none => .error (.invalidInput (dn ++ " is not valid VRF DN"))
        | some vrf =>
            match checkVrfMappings dn ip_version
                (_get_address_scope_mappings_for_vrf db vrf) false with
            | .error e => .error e
            | .ok owned =>
                .ok (_add_address_scope_mapping db result_id vrf owned ip_version)
    | _ => .error (.typeError "from_dn expects a string DN")
  else .ok db

/-! ### extend_*_dict and extend_*_dict_bulk (extension_driver lines 62-119,
269-316, 363-372)

Each of these wraps its body in try / with excutils.save_and_reraise_exception:
a retriable exception (db_api.is_retriable, an external predicate taken
here as a parameter) is logged at debug level, anything else with a full
trace, and the exception is re-raised either way.  The mechanism driver
call is abstracted as its outcome `mdResult`; log output is returned
explicitly so the classification is observable. -/

inductive LogEntry where
  | debug (msg : String)
  | exceptionLog (msg : String)
  | warning (msg : String)
deriving Repr, DecidableEq

/-- try-body wrapper shared by all extend functions: source pattern
`with excutils.save_and_reraise_exception: if is_retriable ... else ...`. -/
def saveAndReraise (α : Type) (is_retriable : PyExc → Bool) (opName : String)
    (body : Except PyExc α) : Except PyExc α × List LogEntry :=
  match body with
  | .ok a => (.ok a, [])
  | .error e =>
      if is_retriable e then
        (.error e, [.debug ("APIC AIM " ++ opName ++ " got retriable exception")])
      else
        (.error e, [.exceptionLog ("APIC AIM " ++ opName ++ " failed")])

/-- extension_driver.extend_port_dict (lines 62-71). -/
def extend_port_dict (is_retriable : PyExc → Bool) (mdResult : Except PyExc Unit) :
    Except PyExc Unit × List LogEntry :=
  saveAndReraise Unit is_retriable "extend_port_dict" mdResult

/-- extension_driver.extend_port_dict_bulk (lines 73-82). -/
def extend_port_dict_bulk (is_retriable : PyExc → Bool) (mdResult : Except PyExc Unit) :
    Except PyExc Unit × List LogEntry :=
  saveAndReraise Unit is_retriable "extend_port_dict_bulk" mdResult

/-- extension_driver.extend_network_dict (lines 99-108). -/
def extend_network_dict (is_retriable : PyExc → Bool) (mdResult : Except PyExc Unit) :
    Except PyExc Unit × List LogEntry :=
  saveAndReraise Unit is_retriable "extend_network_dict" mdResult

/-- extension_driver.extend_network_dict_bulk (lines 110-119). -/
def extend_network_dict_bulk (is_retriable : PyExc → Bool) (mdResult : Except PyExc Unit) :
    Except PyExc Unit × List LogEntry :=
  saveAndReraise Unit is_retriable "extend_network_dict" mdResult

/-- extension_driver.extend_address_scope_dict (lines 363-372). -/
def extend_address_scope_dict (is_retriable : PyExc → Bool)
    (mdResult : Except PyExc Unit) : Except PyExc Unit × List LogEntry :=
  saveAndReraise Unit is_retriable "extend_address_scope_dict" mdResult

/-- Association-list update d[k] = v (replace existing key or append). -/
def dictSet : List (String × PyVal) → String → PyVal → List (String × PyVal)
  | [], k, v => [(k, v)]
  | (l, w) :: rest, k, v =>
      if l = k then (l, v) :: rest else (l, w) :: dictSet rest k v

/-- The six subnet extension keys copied from the extn db into result,
with their defaults (extension_driver lines 273-284). -/
def setSubnetExtnKeys (result : List (String × PyVal))
    (res_dict : PyVal) : List (String × PyVal) :=
  let put := fun (r : List (String × PyVal)) (k : String) (d : PyVal) =>
    dictSet r k (res_dict.pyGetD k d)
  put (put (put (put (put (put result
    "apic:snat_host_pool" (.bool false))
    "apic:active_active_aap" (.bool false))
    "apic:snat_subnet_only" (.bool false))
    "apic:epg_subnet" (.bool false))
    "apic:advertised_externally" (.bool true))
    "apic:shared_between_vrfs" (.bool false)

/-- extension_driver.extend_subnet_dict (lines 269-291): the md call and
the extn-db read both sit inside the try block; `extnDb` is the outcome of
get_subnet_extn_db for result[id]. -/
def extend_subnet_dict (is_retriable : PyExc → Bool)
    (mdResult : Except PyExc Unit) (extnDb : Except PyExc PyVal)
    (result : List (String × PyVal)) :
    Except PyExc (List (String × PyVal)) × List LogEntry :=
  saveAndReraise (List (String × PyVal)) is_retriable "extend_subnet_dict"
    (match mdResult with
     | .error e => .error e
     | .ok _ =>
         match extnDb with
         | .error e => .error e
         | .ok res_dict => .ok (setSubnetExtnKeys result res_dict))

/-- The for-loop body of extend_subnet_dict_bulk over the (result,
subnet_db) pairs, reading the extn db per subnet id. -/
def extendSubnetBulkLoop (extnDb : String → Except PyExc PyVal) :
    List (List (String × PyVal) × String) →
    Except PyExc (List (List (String × PyVal)))
  | [] => .ok []
  | (result, subnet_id) :: rest =>
      match extnDb subnet_id with
      | .error e => .error e
      | .ok res_dict =>
          match extendSubnetBulkLoop extnDb rest with
          | .error e => .error e
          | .ok others => .ok (setSubnetExtnKeys result res_dict :: others)

/-- extension_driver.extend_subnet_dict_bulk (lines 293-316). -/
def extend_subnet_dict_bulk (is_retriable : PyExc → Bool)
    (mdResult : Except PyExc Unit) (extnDb : String → Except PyExc PyVal)
    (results : List (List (String × PyVal) × String)) :
    Except PyExc (List (List (String × PyVal))) × List LogEntry :=
  saveAndReraise (List (List (String × PyVal))) is_retriable "extend_subnet_dict_bulk"
    (match mdResult with
     | .error e => .error e
     | .ok _ => extendSubnetBulkLoop extnDb results)

/-! ### extension_driver.validate_bgp_params and process_create_network
(lines 121-214) -/

def MULTI_EXT_NETS : String := "apic:multi_ext_nets"
def NESTED_DOMAIN_NAME : String := "apic:nested_domain_name"
def NESTED_DOMAIN_TYPE : String := "apic:nested_domain_type"
def NESTED_DOMAIN_INFRA_VLAN : String := "apic:nested_domain_infra_vlan"
def NESTED_DOMAIN_SERVICE_VLAN : String := "apic:nested_domain_service_vlan"
def NESTED_DOMAIN_NODE_NETWORK_VLAN : String := "apic:nested_domain_node_network_vlan"
def NESTED_DOMAIN_ALLOWED_VLANS : String := "apic:nested_domain_allowed_vlans"
def EXTRA_PROVIDED_CONTRACTS : String := "apic:extra_provided_contracts"
def EXTRA_CONSUMED_CONTRACTS : String := "apic:extra_consumed_contracts"
def EPG_CONTRACT_MASTERS : String := "apic:epg_contract_masters"
def POLICY_ENFORCEMENT_PREF : String := "apic:policy_enforcement_pref"
def NO_NAT_CIDRS : String := "apic:no_nat_cidrs"
def NAT_TYPE : String := "apic:nat_type"
def EXTERNAL_CIDRS : String := "apic:external_cidrs"
def VLANS_LIST : String := "vlans_list"

/-- extension_driver.validate_bgp_params (lines 121-133): raises
InvalidInput when the network is not SVI but BGP is enabled, the BGP type
differs from default_export, or the ASN differs from the string 0.
`result` is None at the create call site. -/
def validate_bgp_params (data result : PyVal) : Except PyExc Unit :=
  let is_svi := if result.truthy then result.pyGet SVI else data.pyGetD SVI (.bool false)
  let is_bgp_enabled := data.pyGetD BGP (.bool false)
  let bgp_type := data.pyGetD BGP_TYPE (.str "default_export")
  let asn := data.pyGetD BGP_ASN (.str "0")
  if !is_svi.truthy &&
      (is_bgp_enabled.truthy || !pyEq bgp_type (.str "default_export") ||
        !pyEq asn (.str "0")) then
    .error (.invalidInput
      ("Network has to be created as svi type(--apic:svi True) to enable BGP" ++
        " or to set BGP parameters"))
  else .ok ()

/-- Modelled from the external aim library: ExternalNetwork.from_dn parses
uni/tn-TENANT/out-L3OUT/instP-NAME. -/
def ExternalNetworkRes.from_dn (dn : String) : Option (String × String × String) :=
  match strSplitOn dn '/' with
  | ["uni", t, o, i] =>
      if strStartsWith t "tn-" && strStartsWith o "out-" && strStartsWith i "instP-" then
        some (strDrop t 3, strDrop o 4, strDrop i 6)
      else Option.none
  | _ => Option.none

/-- Modelled from the external aim library: BridgeDomain.from_dn parses
uni/tn-TENANT/BD-NAME. -/
def BridgeDomainRes.from_dn (dn : String) : Option (String × String) :=
  match strSplitOn dn '/' with
  | ["uni", t, b] =>
      if strStartsWith t "tn-" && strStartsWith b "BD-" then
        some (strDrop t 3, strDrop b 3)
      else Option.none
  | _ => Option.none

/-- Python result.update(res_dict): each entry written in order. -/
def dictUpdate (result res_dict : List (String × PyVal)) : List (String × PyVal) :=
  res_dict.foldl (fun r kv => dictSet r kv.1 kv.2) result

/-- Python result.setdefault(outer, {})[inner] = v: a present non-dict
value under outer makes the item assignment raise. -/
def setdefaultAssign (result : List (String × PyVal)) (outer inner : String)
    (v : PyVal) : Except PyExc (List (String × PyVal)) :=
  match result.lookup outer with
  | some (.dict kvs) => .ok (dictSet result outer (.dict (dictSet kvs inner v)))
  | some _ => .error (.typeError "item assignment on non-dict")
  | Option.none => .ok (dictSet result outer (.dict (dictSet [] inner v)))

/-- extension_driver.process_create_network (lines 135-214), returning the
list of set_network_extn_db writes (each carries the res_dict written; the
id is always result[id]) and the final result dict.  DN values present but
not strings would make from_dn raise in Python (TypeError here). -/
def process_create_network (data : PyVal) (result : List (String × PyVal)) :
    Except PyExc (List (List (String × PyVal)) × List (String × PyVal)) :=
  let is_svi := data.pyGetD SVI (.bool false)
  let is_bgp_enabled := data.pyGetD BGP (.bool false)
  let bgp_type := data.pyGetD BGP_TYPE (.str "default_export")
  let asn := data.pyGetD BGP_ASN (.str "0")
  let use_multi_ext_nets := data.pyGetD MULTI_EXT_NETS (.bool false)
  match validate_bgp_params data .none with
  | .error e => .error e
  | .ok _ =>
      let res_dict : List (String × PyVal) :=
        [(SVI, is_svi), (BGP, is_bgp_enabled), (BGP_TYPE, bgp_type),
         (BGP_ASN, asn),
         (NESTED_DOMAIN_NAME, data.pyGet NESTED_DOMAIN_NAME),
         (NESTED_DOMAIN_TYPE, data.pyGet NESTED_DOMAIN_TYPE),
         (NESTED_DOMAIN_INFRA_VLAN, data.pyGet NESTED_DOMAIN_INFRA_VLAN),
         (NESTED_DOMAIN_SERVICE_VLAN, data.pyGet NESTED_DOMAIN_SERVICE_VLAN),
         (NESTED_DOMAIN_NODE_NETWORK_VLAN,
           data.pyGet NESTED_DOMAIN_NODE_NETWORK_VLAN),
         (EXTRA_PROVIDED_CONTRACTS, data.pyGet EXTRA_PROVIDED_CONTRACTS),
         (EXTRA_CONSUMED_CONTRACTS, data.pyGet EXTRA_CONSUMED_CONTRACTS),
         (EPG_CONTRACT_MASTERS, data.pyGet EPG_CONTRACT_MASTERS),
         (POLICY_ENFORCEMENT_PREF,
           data.pyGetD POLICY_ENFORCEMENT_PREF (.str "unenforced")),
         (NO_NAT_CIDRS, data.pyGet NO_NAT_CIDRS),
         (MULTI_EXT_NETS, use_multi_ext_nets)]
      let ndav := data.pyGet NESTED_DOMAIN_ALLOWED_VLANS
      let res_dict :=
        if ndav.truthy && ndav.hasKey VLANS_LIST then
          dictSet res_dict NESTED_DOMAIN_ALLOWED_VLANS (ndav.pyGet VLANS_LIST)
        else res_dict
      let writes := [res_dict]
      let result := dictUpdate result res_dict
      let afterEn :
          Except PyExc (List (List (String × PyVal)) × List (String × PyVal)) :=
        if (data.pyGet DIST_NAMES).truthy &&
            ((data.pyGet DIST_NAMES).pyGet EXTERNAL_NETWORK).truthy then
          match (data.pyGet DIST_NAMES).pyGet EXTERNAL_NETWORK with
          | .str dn =>
              match ExternalNetworkRes.from_dn dn with
              | Option.none =>
                  .error (.invalidInput (dn ++ " is not valid ExternalNetwork DN"))
              | some _ =>
                  let res_dict2 : List (String × PyVal) :=
                    if is_svi.truthy then [(EXTERNAL_NETWORK, .str dn)]
                    else
                      [(EXTERNAL_NETWORK, .str dn),
                       (NAT_TYPE, data.pyGetD NAT_TYPE (.str "distributed")),
                       (EXTERNAL_CIDRS,
                         data.pyGetD EXTERNAL_CIDRS (.list [.str "0.0.0.0/0"]))]
                  match setdefaultAssign result DIST_NAMES EXTERNAL_NETWORK (.str dn) with
                  | .error e => .error e
                  | .ok result2 =>
                      let popped := res_dict2.filter (fun kv => kv.1 ≠ EXTERNAL_NETWORK)
                      .ok (writes ++ [res_dict2], dictUpdate result2 popped)
          | _ => .error (.typeError "from_dn expects a string DN")
        else .ok (writes, result)
      match afterEn with
      | .error e => .error e
      | .ok (writes, result) =>
          if (data.pyGet DIST_NAMES).truthy &&
              ((data.pyGet DIST_NAMES).pyGet BD_KEY).truthy then
            match (data.pyGet DIST_NAMES).pyGet BD_KEY with
            | .str dn =>
                match BridgeDomainRes.from_dn dn with
                | Option.none =>
                    .error (.invalidInput (dn ++ " is not valid BridgeDomain DN"))
                | some _ =>
                    let res_dict3 : List (String × PyVal) := [(BD_KEY, .str dn)]
                    match setdefaultAssign result DIST_NAMES BD_KEY (.str dn) with
                    | .error e => .error e
                    | .ok result3 =>
                        let popped := res_dict3.filter (fun kv => kv.1 ≠ BD_KEY)
                        .ok (writes ++ [res_dict3], dictUpdate result3 popped)
            | _ => .error (.typeError "from_dn expects a string DN")
          else .ok (writes, result)

/-! ### nova_client.NovaClient (lines 34-62)

The novaclient calls are abstracted as their outcomes (`clientGet`,
`clientList`); servers are opaque handles.  Timestamps are integer
seconds, so datetime.now() - timedelta(seconds=s) is now - s, rendered by
str. -/

/-- The message carried by an exception (used for LOG.exception(e)). -/
def PyExc.msgOf : PyExc → String
  | .valueError m => m
  | .typeError m => m
  | .keyError k => k
  | .invalidInput m => m
  | .notFound => "NotFound"
  | .other m => m

/-- Arguments of a client.servers.list call. -/
structure ServerListRequest where
  detailed : Bool
  search_opts : List (String × PyVal)
  limit : Int
deriving Repr

/-- The search_opts dict built by NovaClient.get_servers (lines 49-56). -/
def get_servers_search_opts (is_full_update : Bool)
    (now changes_since_in_sec : Int) : List (String × PyVal) :=
  if is_full_update then [("all_tenants", .int 1)]
  else
    [("all_tenants", .int 1),
     ("changes-since", .str (toString (now - changes_since_in_sec))),
     ("deleted", .str "false")]

/-- NovaClient.get_servers (lines 48-62): the list call is issued with
detailed=False, the search_opts above and limit=-1; any exception from it
is logged and swallowed, leaving the implicit return None. -/
def NovaClient.get_servers (clientList : ServerListRequest → Except PyExc (List String))
    (is_full_update : Bool) (now changes_since_in_sec : Int) :
    Except PyExc (Option (List String)) × List LogEntry :=
  let req : ServerListRequest :=
    ⟨false, get_servers_search_opts is_full_update now changes_since_in_sec, -1⟩
  match clientList req with
  | .ok servers => (.ok (some servers), [])
  | .error e => (.ok Option.none, [.exceptionLog e.msgOf])

/-- NovaClient.get_server (lines 39-46): NotFound is logged as a warning,
any other exception with a trace; both fall through to the implicit
return None. -/
def NovaClient.get_server (clientGet : String → Except PyExc String)
    (server_id : String) : Except PyExc (Option String) × List LogEntry :=
  match clientGet server_id with
  | .ok s => (.ok (some s), [])
  | .error .notFound =>
      (.ok Option.none, [.warning ("Nova returned NotFound for server: " ++ server_id)])
  | .error e => (.ok Option.none, [.exceptionLog e.msgOf])

/-! ### Migration 68fcb81878c5 upgrade (lines 29-59)

Schema operations are recorded as a list; the backfill
(data_migrations.do_ha_ip_vrf_name_insertion, which lives outside this
source slice) is abstracted as its outcome: success, failed import of the
AIM libraries, or any other exception. -/

inductive BackfillOutcome where
  | success
  | importFailed
  | exception (msg : String)
deriving Repr, DecidableEq

inductive SchemaOp where
  | drop_constraint (name table kind : String)
  | add_column (table col : String) (length : Nat) (nullable : Bool)
  | create_primary_key (name table : String) (cols : List String)
deriving Repr, DecidableEq

def HA_TABLE : String := "apic_ml2_ha_ipaddress_to_port_owner"

/-- The three schema operations of upgrade(), in order (lines 31-43). -/
def upgradeSchemaOps (pk_name : String) : List SchemaOp :=
  [.drop_constraint pk_name HA_TABLE "primary",
   .add_column HA_TABLE "vrf" 64 false,
   .create_primary_key "apic_ml2_ha_ipaddress_to_port_owner_pk" HA_TABLE
     ["ha_ip_address", "vrf"]]

/-- Migration 68fcb81878c5 upgrade(): the primary-key change and vrf
column are applied unconditionally; the backfill is attempted only when
the table exists and its ImportError / generic Exception are caught and
turned into warnings (lines 45-59). -/
def upgrade (pk_name : String) (tableExists : Bool) (backfill : BackfillOutcome) :
    Except PyExc (List SchemaOp × List String) :=
  let ops := upgradeSchemaOps pk_name
  if tableExists then
    match backfill with
    | .success => .ok (ops, [])
    | .importFailed =>
        .ok (ops, ["AIM schema present, but failed to import AIM libraries" ++
          " - HA IP vrf name not inserted."])
    | .exception e => .ok (ops, ["Caught exception inserting HA IP vrf name: " ++ e])
  else .ok (ops, [])

/-! ### Auxiliary definitions used by the statements below -/

/-- Whether a value is a Python int instance (bools excluded, as in the
claim's reading of integer inputs). -/
def PyVal.isInt : PyVal → Bool
  | .int _ => true
  | _ => false

/-- An ERSPAN config entry that passes every per-entry check of
_validate_erspan_configs: required keys present, flow id valid, dest ip
accepted by the ip validator. -/
def erspanEntryValid (ipValid : PyVal → Option String) (c : PyVal) : Bool :=
  (_verify_dict_keys ERSPAN_EXPECTED_KEYS c false).isNone &&
  (match c.getItem ERSPAN_FLOW_ID with
   | .ok fid =>
       match _validate_erspan_flow_id fid with
       | .ok Option.none => true
       | _ => false
   | .error _ => false) &&
  (match c.getItem ERSPAN_DEST_IP with
   | .ok dip => (ipValid dip).isNone
   | .error _ => false)

/-! ## Helper lemmas -/

/-- A string with a nonempty left part is nonempty. -/
theorem append_ne_empty (s t : String) (h : s.length ≠ 0) : s ++ t ≠ "" := by
  intro he
  have hl := congrArg String.length he
  simp [String.length_append] at hl
  omega

/-- A string with a nonempty right part is nonempty. -/
theorem append_ne_empty_right (s t : String) (h : t.length ≠ 0) : s ++ t ≠ "" := by
  intro he
  have hl := congrArg String.length he
  simp [String.length_append] at hl
  omega

/-- A three-part append with a nonempty leftmost part is nonempty. -/
theorem append3_ne_empty (a b c : String) (h : a.length ≠ 0) : a ++ b ++ c ≠ "" := by
  intro he
  have hl := congrArg String.length he
  simp [String.length_append] at hl
  omega

/-- A nonempty string has isEmpty false. -/
theorem isEmpty_false_of_ne (s : String) (h : s ≠ "") : s.isEmpty = false := by
  rw [Bool.eq_false_iff]
  intro hb
  exact h ((String.isEmpty_iff s).mp hb)

/-- Unfolding of _validate_apic_vlan away from the None fast path. -/
theorem _validate_apic_vlan_eq (d : PyVal) (hd : d ≠ PyVal.none) :
    _validate_apic_vlan d =
      match pyToInt d with
      | some v =>
          if APIC_MIN_VLAN ≤ v ∧ v ≤ APIC_MAX_VLAN then Option.none
          else some ("Invalid value for VLAN: " ++ pyStr d)
      | Option.none => some ("Invalid data format for VLAN: " ++ pyStr d) := by
  cases d <;> first | exact absurd rfl hd | rfl

/-- _validate_apic_vlan is total: it accepts or returns a nonempty
message, never raising. -/
theorem _validate_apic_vlan_total (d : PyVal) :
    _validate_apic_vlan d = Option.none ∨
      ∃ m, _validate_apic_vlan d = some m ∧ m ≠ "" := by
  by_cases hd : d = PyVal.none
  · subst hd; exact Or.inl rfl
  · rw [_validate_apic_vlan_eq d hd]
    rcases h : pyToInt d with _ | v
    · exact Or.inr ⟨_, rfl, append_ne_empty _ _ (by decide)⟩
    · by_cases hr : APIC_MIN_VLAN ≤ v ∧ v ≤ APIC_MAX_VLAN
      · simp [hr]
      · simp only [if_neg hr]
        exact Or.inr ⟨_, rfl, append_ne_empty _ _ (by decide)⟩

/-! ## Claim theorems -/

/-- C2 counterexample: the string value 5 is neither None nor an int
instance, yet _validate_apic_vlan accepts it (int(data) converts numeric
strings), contradicting the claim that every non-integer input gets an
error message. -/
theorem C2_counterexample :
    (PyVal.str "5").isInt = false ∧ PyVal.str "5" ≠ PyVal.none ∧
      _validate_apic_vlan (PyVal.str "5") = Option.none :=
  ⟨rfl, fun h => PyVal.noConfusion h, rfl⟩

/-- C2 (amended): _validate_apic_vlan returns None exactly when its input
is None or int() converts it to a value v with 1 <= v <= 4093 (this
includes numeric strings and booleans, not only int instances); every
other input gets a nonempty error message. -/
theorem C2_validate_apic_vlan_amended (data : PyVal) :
    (_validate_apic_vlan data = Option.none ↔
      data = PyVal.none ∨
        ∃ v, pyToInt data = some v ∧ APIC_MIN_VLAN ≤ v ∧ v ≤ APIC_MAX_VLAN) ∧
    (_validate_apic_vlan data = Option.none ∨
      ∃ m, _validate_apic_vlan data = some m ∧ m ≠ "") := by
  refine ⟨?_, _validate_apic_vlan_total data⟩
  by_cases hd : data = PyVal.none
  · subst hd; simp [_validate_apic_vlan]
  · rw [_validate_apic_vlan_eq data hd]
    rcases h : pyToInt data with _ | v
    · simp [hd, h]
    · by_cases hr : APIC_MIN_VLAN ≤ v ∧ v ≤ APIC_MAX_VLAN
      · simp [hr, hd, h]
      · simp only [if_neg hr]
        constructor
        · intro hfalse; exact absurd hfalse (by simp)
        · rintro (hc | ⟨v2, hv2, hrange⟩)
          · exact absurd hc hd
          · cases Option.some.inj hv2
            exact absurd hrange hr

/-- C3 (confirmed): over integer inputs, _validate_erspan_flow_id accepts
exactly the values 1 through 1023 (and None); each other integer — zero,
negative, or greater than 1023 — gets a nonempty error message. -/
theorem C3_erspan_flow_id_range :
    _validate_erspan_flow_id PyVal.none = .ok Option.none ∧
    ∀ n : Int,
      (_validate_erspan_flow_id (PyVal.int n) = .ok Option.none ↔ 1 ≤ n ∧ n ≤ 1023) ∧
      ((1 ≤ n ∧ n ≤ 1023) ∨
        ∃ m, _validate_erspan_flow_id (PyVal.int n) = .ok (some m) ∧ m ≠ "") := by
  refine ⟨rfl, fun n => ?_⟩
  have heq : _validate_erspan_flow_id (PyVal.int n) =
      (if n > 1023 then
        .ok (some ("ERSPAN flow ID must be less than 1023 (was " ++ pyStr (PyVal.int n) ++ ")"))
      else if n = 0 then
        .ok (some ("ERSPAN flow ID must be greater than 0 (was " ++ pyStr (PyVal.int n) ++ ")"))
      else .ok (validate_non_negative (PyVal.int n))) := rfl
  have hval : validate_non_negative (PyVal.int n) =
      if n < 0 then some (pyStr (PyVal.int n) ++ " should be non-negative")
      else Option.none := by
    simp [validate_non_negative, pyToInt]
  by_cases h1 : n > 1023
  · rw [heq, if_pos h1]
    constructor
    · constructor
      · intro hc; exact absurd hc (by simp)
      · intro hc; exact absurd hc (by omega)
    · exact Or.inr ⟨_, rfl, append3_ne_empty _ _ _ (by decide)⟩
  · by_cases h2 : n = 0
    · subst h2
      rw [heq, if_neg h1, if_pos rfl]
      constructor
      · constructor
        · intro hc; exact absurd hc (by simp)
        · intro hc; exact absurd hc (by omega)
      · exact Or.inr ⟨_, rfl, append3_ne_empty _ _ _ (by decide)⟩
    · by_cases h3 : n < 0
      · rw [heq, if_neg h1, if_neg h2, hval, if_pos h3]
        constructor
        · constructor
          · intro hc; exact absurd hc (by simp)
          · intro hc; exact absurd hc (by omega)
        · exact Or.inr ⟨_, rfl, append_ne_empty_right _ _ (by decide)⟩
      · have hin : 1 ≤ n ∧ n ≤ 1023 := by omega
        rw [heq, if_neg h1, if_neg h2, hval, if_neg h3]
        exact ⟨by simp [hin], Or.inl hin⟩

/-- C9 (confirmed): on the non-numeric string abc the flow-id validator
raises ValueError from the unguarded int(data), although
validate_non_negative had already produced the validation message. -/
theorem C9_flow_id_uncaught :
    _validate_erspan_flow_id (PyVal.str "abc") =
      .error (.valueError ("invalid literal for int with base 10: " ++ "abc")) ∧
    validate_non_negative (PyVal.str "abc") = some ("abc" ++ " is not an integer") :=
  ⟨rfl, rfl⟩

/-- C5 (confirmed): every extend_*_dict and extend_*_dict_bulk operation
re-raises an exception from the delegated mechanism driver unchanged,
whether classified retriable (debug log) or fatal (trace log); none is
swallowed. -/
theorem C5_extend_dict_reraise (is_retriable : PyExc → Bool) (e : PyExc)
    (extnDb : Except PyExc PyVal) (extnDbBulk : String → Except PyExc PyVal)
    (result : List (String × PyVal))
    (results : List (List (String × PyVal) × String)) :
    (extend_port_dict is_retriable (.error e)).1 = .error e ∧
    (extend_port_dict_bulk is_retriable (.error e)).1 = .error e ∧
    (extend_network_dict is_retriable (.error e)).1 = .error e ∧
    (extend_network_dict_bulk is_retriable (.error e)).1 = .error e ∧
    (extend_address_scope_dict is_retriable (.error e)).1 = .error e ∧
    (extend_subnet_dict is_retriable (.error e) extnDb result).1 = .error e ∧
    (extend_subnet_dict_bulk is_retriable (.error e) extnDbBulk results).1 = .error e ∧
    (extend_port_dict is_retriable (.error e)).2 =
      (if is_retriable e then
        [LogEntry.debug "APIC AIM extend_port_dict got retriable exception"]
      else [LogEntry.exceptionLog "APIC AIM extend_port_dict failed"]) := by
  cases hre : is_retriable e <;>
    simp [extend_port_dict, extend_port_dict_bulk, extend_network_dict,
      extend_network_dict_bulk, extend_address_scope_dict, extend_subnet_dict,
      extend_subnet_dict_bulk, saveAndReraise, hre]

/-- C7 (confirmed): the server list is always requested with the
all_tenants filter; a full update carries no changes-since or deleted
filter, while an incremental update carries changes-since equal to now
minus changes_since_in_sec and deleted false; get_servers passes exactly
these search_opts to the list call. -/
theorem C7_get_servers_filters (is_full_update : Bool) (now cs : Int) :
    (get_servers_search_opts is_full_update now cs).lookup "all_tenants" =
      some (.int 1) ∧
    (get_servers_search_opts true now cs).lookup "changes-since" = Option.none ∧
    (get_servers_search_opts true now cs).lookup "deleted" = Option.none ∧
    (get_servers_search_opts false now cs).lookup "changes-since" =
      some (.str (toString (now - cs))) ∧
    (get_servers_search_opts false now cs).lookup "deleted" =
      some (.str "false") ∧
    (NovaClient.get_servers
        (fun req => .ok (req.search_opts.map Prod.fst)) false now cs).1 =
      .ok (some ["all_tenants", "changes-since", "deleted"]) ∧
    (NovaClient.get_servers
        (fun req => .ok (req.search_opts.map Prod.fst)) true now cs).1 =
      .ok (some ["all_tenants"]) := by
  cases is_full_update <;> exact ⟨rfl, rfl, rfl, rfl, rfl, rfl, rfl⟩

/-- C8 (confirmed): the migration upgrade never fails because of the
optional vrf-backfill: for every backfill outcome it completes with the
primary-key drop, the vrf column addition and the new composite primary
key applied, and a failed import or any other exception only adds a
warning. -/
theorem C8_upgrade_never_fails (pk_name : String) (tableExists : Bool)
    (backfill : BackfillOutcome) :
    (∃ warns, upgrade pk_name tableExists backfill =
        .ok (upgradeSchemaOps pk_name, warns) ∧
      (tableExists = false ∨ backfill = .success ∨ warns ≠ [])) ∧
    SchemaOp.add_column HA_TABLE "vrf" 64 false ∈ upgradeSchemaOps pk_name ∧
    SchemaOp.create_primary_key "apic_ml2_ha_ipaddress_to_port_owner_pk"
      HA_TABLE ["ha_ip_address", "vrf"] ∈ upgradeSchemaOps pk_name ∧
    SchemaOp.drop_constraint pk_name HA_TABLE "primary" ∈
      upgradeSchemaOps pk_name := by
  refine ⟨?_, by simp [upgradeSchemaOps], by simp [upgradeSchemaOps],
    by simp [upgradeSchemaOps]⟩
  cases tableExists
  · exact ⟨[], rfl, Or.inl rfl⟩
  · cases backfill with
    | success => exact ⟨[], rfl, Or.inr (Or.inl rfl)⟩
    | importFailed => exact ⟨_, rfl, Or.inr (Or.inr (by simp))⟩
    | exception m => exact ⟨_, rfl, Or.inr (Or.inr (by simp))⟩

/-- C10 (confirmed): get_server and get_servers never propagate an
exception of the caught Exception hierarchy: every client outcome yields
an ok value; NotFound and any other exception give None from get_server,
a successful get gives the server, and any exception from the list call
gives None from get_servers. -/
theorem C10_nova_no_propagation (clientGet : String → Except PyExc String)
    (clientList : ServerListRequest → Except PyExc (List String)) (sid : String)
    (is_full_update : Bool) (now cs : Int) (e : PyExc) :
    (∃ v, (NovaClient.get_server clientGet sid).1 = .ok v) ∧
    (NovaClient.get_server (fun _ => .error .notFound) sid).1 =
      .ok Option.none ∧
    (NovaClient.get_server (fun _ => .error e) sid).1 = .ok Option.none ∧
    (∀ s, NovaClient.get_server (fun _ => .ok s) sid = (.ok (some s), [])) ∧
    (∃ v, (NovaClient.get_servers clientList is_full_update now cs).1 =
      .ok v) ∧
    (NovaClient.get_servers (fun _ => .error e) is_full_update now cs).1 =
      .ok Option.none := by
  refine ⟨?_, rfl, ?_, fun s => rfl, ?_, rfl⟩
  · rcases h : clientGet sid with e2 | s
    · cases e2 <;> exact ⟨Option.none, by simp [NovaClient.get_server, h]⟩
    · exact ⟨some s, by simp [NovaClient.get_server, h]⟩
  · cases e <;> rfl
  · rcases h : clientList ⟨false, get_servers_search_opts is_full_update now cs, -1⟩
      with e2 | vs
    · exact ⟨Option.none, by simp [NovaClient.get_servers, h]⟩
    · exact ⟨some vs, by simp [NovaClient.get_servers, h]⟩

/-- C6 counterexample: process_create_network raises InvalidInput for a
create request enabling BGP on a non-SVI network, so an input-validation
failure in a create hook is reported by raising, not by a returned
message. -/
theorem C6_counterexample :
    process_create_network (.dict [(BGP, .bool true)]) [("id", .str "n1")] =
      .error (.invalidInput
        ("Network has to be created as svi type(--apic:svi True) to enable BGP" ++
          " or to set BGP parameters")) := rfl

/-- Unfolding of validate_bgp_params at the create call site (result is
None, so is_svi comes from data). -/
theorem validate_bgp_params_none_eq (data : PyVal) :
    validate_bgp_params data .none =
      if (!(data.pyGetD SVI (PyVal.bool false)).truthy &&
          ((data.pyGetD BGP (PyVal.bool false)).truthy ||
            !pyEq (data.pyGetD BGP_TYPE (PyVal.str "default_export"))
              (PyVal.str "default_export") ||
            !pyEq (data.pyGetD BGP_ASN (PyVal.str "0")) (PyVal.str "0"))) = true then
        .error (.invalidInput
          ("Network has to be created as svi type(--apic:svi True) to enable BGP" ++
            " or to set BGP parameters"))
      else .ok () := rfl

/-- C6 (amended): the attribute validators report failures by returning
message strings (_validate_apic_vlan accepts or returns a nonempty
message, never raising), but the network and address-scope create hooks
raise: validate_bgp_params either succeeds or raises InvalidInput with a
nonempty message, and process_create_network propagates that exception. -/
theorem C6_validation_reporting_amended (data : PyVal)
    (result : List (String × PyVal)) :
    (validate_bgp_params data .none = .ok () ∨
      ∃ m, validate_bgp_params data .none = .error (.invalidInput m) ∧ m ≠ "") ∧
    (∀ e, validate_bgp_params data .none = .error e →
      process_create_network data result = .error e) ∧
    (∀ d : PyVal, _validate_apic_vlan d = Option.none ∨
      ∃ m, _validate_apic_vlan d = some m ∧ m ≠ "") := by
  refine ⟨?_, ?_, _validate_apic_vlan_total⟩
  · rw [validate_bgp_params_none_eq]
    split
    · exact Or.inr ⟨_, rfl, append_ne_empty _ _ (by decide)⟩
    · exact Or.inl rfl
  · intro e h
    simp only [process_create_network, h]

/-- C6 witness: the amended hook behavior at a concrete invalid input. -/
theorem C6_amended_witness :
    validate_bgp_params (.dict [(BGP, .bool true)]) .none =
      .error (.invalidInput
        ("Network has to be created as svi type(--apic:svi True) to enable BGP" ++
          " or to set BGP parameters")) ∧
    process_create_network (.dict [(BGP, .bool true)]) [("id", .str "n1")] =
      .error (.invalidInput
        ("Network has to be created as svi type(--apic:svi True) to enable BGP" ++
          " or to set BGP parameters")) :=
  ⟨rfl,
    (C6_validation_reporting_amended (.dict [(BGP, .bool true)])
      [("id", .str "n1")]).2.1 _ rfl⟩

/-- The mapping loop succeeds when no mapping has the requested
ip_version, returning some vrf_owned flag. -/
theorem checkVrfMappings_ok (dn : String) (ipv : Int) :
    ∀ (l : List AddressScopeMapping) (owned0 : Bool),
      (∀ m ∈ l, m.ip_version ≠ ipv) →
      ∃ owned, checkVrfMappings dn ipv l owned0 = .ok owned := by
  intro l
  induction l with
  | nil => exact fun owned0 _ => ⟨owned0, rfl⟩
  | cons m rest ih =>
      intro owned0 h
      have hm : m.ip_version ≠ ipv := h m (List.mem_cons_self m rest)
      have hstep : checkVrfMappings dn ipv (m :: rest) owned0 =
          checkVrfMappings dn ipv rest m.vrf_owned := by
        simp [checkVrfMappings, hm]
      rw [hstep]
      exact ih m.vrf_owned (fun x hx => h x (List.mem_cons_of_mem m hx))

/-- The mapping loop raises InvalidInput when some mapping has the
requested ip_version. -/
theorem checkVrfMappings_error (dn : String) (ipv : Int) :
    ∀ (l : List AddressScopeMapping) (owned0 : Bool),
      (∃ m ∈ l, m.ip_version = ipv) →
      ∃ msg, checkVrfMappings dn ipv l owned0 =
        .error (.invalidInput msg) := by
  intro l
  induction l with
  | nil => rintro owned0 ⟨m, hm, _⟩; exact absurd hm (List.not_mem_nil m)
  | cons m rest ih =>
      rintro owned0 ⟨m2, hm2, hipv⟩
      by_cases hm : m.ip_version = ipv
      · exact ⟨"VRF " ++ dn ++ " is already in use by address-scope " ++ m.scope_id,
          by simp [checkVrfMappings, hm]⟩
      · have hstep : checkVrfMappings dn ipv (m :: rest) owned0 =
            checkVrfMappings dn ipv rest m.vrf_owned := by
          simp [checkVrfMappings, hm]
        rw [hstep]
        rcases List.mem_cons.mp hm2 with h1 | h2
        · subst h1; exact absurd hipv hm
        · exact ih m.vrf_owned ⟨m2, h2, hipv⟩

/-- C1 counterexample: with an empty mapping table — so no existing
mapping of any IP version — a create request carrying an unparseable VRF
DN still raises InvalidInput, refuting the claimed equivalence between
raising and the existence of a same-IP-version mapping. -/
theorem C1_counterexample :
    process_create_address_scope []
        (.dict [(DIST_NAMES, .dict [(VRF_KEY, .str "bad")])]) 4 "s1" =
      .error (.invalidInput ("bad" ++ " is not valid VRF DN")) ∧
    ([] : List AddressScopeMapping).any (fun m => decide (m.ip_version = 4)) = false ∧
    ([] : List AddressScopeMapping).length = 0 :=
  ⟨rfl, rfl, rfl⟩

/-- C1 (amended): for a create request carrying a VRF DN string, the hook
raises InvalidInput exactly when the DN does not parse as a VRF or some
existing mapping for that VRF has the request's ip_version; when the DN
parses and no same-IP-version mapping exists, the mapping table gains a
row for the created scope's id. -/
theorem C1_process_create_address_scope_amended
    (db : List AddressScopeMapping) (data : PyVal) (ipv : Int) (rid dn : String)
    (hdn : (data.pyGet DIST_NAMES).pyGet VRF_KEY = .str dn)
    (htr : (data.pyGet DIST_NAMES).truthy = true)
    (hne : dn ≠ "") :
    (VRFRes.from_dn dn = Option.none →
      process_create_address_scope db data ipv rid =
        .error (.invalidInput (dn ++ " is not valid VRF DN"))) ∧
    (∀ vrf, VRFRes.from_dn dn = some vrf →
      ((∃ m ∈ db, m.vrf = vrf ∧ m.ip_version = ipv) →
        ∃ msg, process_create_address_scope db data ipv rid =
          .error (.invalidInput msg)) ∧
      ((∀ m ∈ db, m.vrf = vrf → m.ip_version ≠ ipv) →
        ∃ owned, process_create_address_scope db data ipv rid =
          .ok (db ++ [⟨rid, vrf, owned, ipv⟩]))) := by
  have hcond : ((data.pyGet DIST_NAMES).truthy &&
      (PyVal.str dn).truthy) = true := by
    rw [htr]
    simp [PyVal.truthy, isEmpty_false_of_ne dn hne]
  have step : process_create_address_scope db data ipv rid =
      (match VRFRes.from_dn dn with
       | Option.none => .error (.invalidInput (dn ++ " is not valid VRF DN"))
       | some vrf =>
           match checkVrfMappings dn ipv
               (_get_address_scope_mappings_for_vrf db vrf) false with
           | .error e => .error e
           | .ok owned => .ok (_add_address_scope_mapping db rid vrf owned ipv)) := by
    simp only [process_create_address_scope, hdn, hcond, eq_self_iff_true, if_true]
  refine ⟨fun hnone => by simp only [step, hnone], fun vrf hsome => ⟨?_, ?_⟩⟩
  · rintro ⟨m, hm, hvrf, hipv⟩
    have hmem : m ∈ _get_address_scope_mappings_for_vrf db vrf := by
      simp [_get_address_scope_mappings_for_vrf, List.mem_filter, hm, hvrf]
    obtain ⟨msg, hmsg⟩ := checkVrfMappings_error dn ipv
      (_get_address_scope_mappings_for_vrf db vrf) false ⟨m, hmem, hipv⟩
    exact ⟨msg, by simp only [step, hsome, hmsg]⟩
  · intro hno
    have hall : ∀ m ∈ _get_address_scope_mappings_for_vrf db vrf,
        m.ip_version ≠ ipv := by
      intro m hm
      have := List.mem_filter.mp hm
      exact hno m this.1 (by simpa using this.2)
    obtain ⟨owned, howned⟩ := checkVrfMappings_ok dn ipv
      (_get_address_scope_mappings_for_vrf db vrf) false hall
    exact ⟨owned, by simp only [step, hsome, howned, _add_address_scope_mapping]⟩

/-- C1 witness: a valid fresh VRF DN with an empty table adds the
mapping; with a same-IP-version mapping present the create raises. -/
theorem C1_amended_witness :
    (∃ owned, process_create_address_scope []
        (.dict [(DIST_NAMES, .dict [(VRF_KEY, .str "uni/tn-t1/ctx-v1")])]) 4 "s1" =
      .ok ([] ++ [⟨"s1", ⟨"t1", "v1"⟩, owned, 4⟩])) ∧
    (∃ msg, process_create_address_scope [⟨"s0", ⟨"t1", "v1"⟩, true, 4⟩]
        (.dict [(DIST_NAMES, .dict [(VRF_KEY, .str "uni/tn-t1/ctx-v1")])]) 4 "s2" =
      .error (.invalidInput msg)) := by
  constructor
  · exact ((C1_process_create_address_scope_amended []
      (.dict [(DIST_NAMES, .dict [(VRF_KEY, .str "uni/tn-t1/ctx-v1")])]) 4 "s1"
      "uni/tn-t1/ctx-v1" rfl rfl (by decide)).2 ⟨"t1", "v1"⟩ rfl).2 (by simp)
  · exact ((C1_process_create_address_scope_amended
      [⟨"s0", ⟨"t1", "v1"⟩, true, 4⟩]
      (.dict [(DIST_NAMES, .dict [(VRF_KEY, .str "uni/tn-t1/ctx-v1")])]) 4 "s2"
      "uni/tn-t1/ctx-v1" rfl rfl (by decide)).2 ⟨"t1", "v1"⟩ rfl).1
      ⟨⟨"s0", ⟨"t1", "v1"⟩, true, 4⟩, by simp, rfl, rfl⟩

/-- One step of the config loop on an entry passing all per-entry checks:
only the duplicate test against the accumulated entries remains. -/
theorem erspanConfigsLoop_cons_valid (ipValid : PyVal → Option String)
    (c : PyVal) (rest acc : List PyVal)
    (hv : erspanEntryValid ipValid c = true) :
    erspanConfigsLoop ipValid (c :: rest) acc =
      if acc.any (fun x => pyEq c x) then
        .ok (some ("Duplicate ERSPAN config " ++ pyStr c))
      else erspanConfigsLoop ipValid rest (acc ++ [c]) := by
  unfold erspanEntryValid at hv
  rw [Bool.and_eq_true, Bool.and_eq_true] at hv
  obtain ⟨⟨h1, h2⟩, h3⟩ := hv
  have h1e : _verify_dict_keys ERSPAN_EXPECTED_KEYS c false = Option.none :=
    Option.isNone_iff_eq_none.mp h1
  rcases hfid : c.getItem ERSPAN_FLOW_ID with e | fid
  · simp only [hfid] at h2
    exact absurd h2 (by simp)
  · simp only [hfid] at h2
    rcases hflow : _validate_erspan_flow_id fid with e2 | mo
    · simp only [hflow] at h2
      exact absurd h2 (by simp)
    · simp only [hflow] at h2
      rcases mo with _ | m
      · rcases hdip : c.getItem ERSPAN_DEST_IP with e3 | dip
        · simp only [hdip] at h3
          exact absurd h3 (by simp)
        · simp only [hdip] at h3
          have hip : ipValid dip = Option.none := by
            simpa using h3
          simp only [erspanConfigsLoop, h1e, hfid, hflow, hdip, hip]
      · exact absurd h2 (by simp)

/-- The config loop accepts a list of valid entries that are pairwise
distinct as Python dicts and fresh with respect to the accumulator. -/
theorem erspanConfigsLoop_ok_of_distinct (ipValid : PyVal → Option String) :
    ∀ (xs acc : List PyVal),
      (∀ c ∈ xs, erspanEntryValid ipValid c = true) →
      (∀ c ∈ xs, ∀ a ∈ acc, pyEq c a = false) →
      xs.Pairwise (fun a b => pyEq b a = false) →
      erspanConfigsLoop ipValid xs acc = .ok Option.none := by
  intro xs
  induction xs with
  | nil => intro acc _ _ _; rfl
  | cons c rest ih =>
      intro acc hval hacc hpw
      rw [erspanConfigsLoop_cons_valid ipValid c rest acc (hval c (by simp))]
      have hany : acc.any (fun x => pyEq c x) = false := by
        rw [List.any_eq_false]
        intro x hx
        simp [hacc c (by simp) x hx]
      rw [hany]
      simp only [Bool.false_eq_true, if_false]
      apply ih
      · intro d hd; exact hval d (by simp [hd])
      · intro d hd a ha
        rcases List.mem_append.mp ha with hin | hin
        · exact hacc d (by simp [hd]) a hin
        · have hac : a = c := List.mem_singleton.mp hin
          subst hac
          exact (List.pairwise_cons.mp hpw).1 d hd
      · exact (List.pairwise_cons.mp hpw).2

/-- The config loop reports a duplicate when the list of valid entries
contains an entry equal (as a Python dict) to an earlier entry or to one
already accumulated. -/
theorem erspanConfigsLoop_dup (ipValid : PyVal → Option String) :
    ∀ (xs acc : List PyVal),
      (∀ c ∈ xs, erspanEntryValid ipValid c = true) →
      (∃ pre c post, xs = pre ++ c :: post ∧ ∃ a ∈ acc ++ pre, pyEq c a = true) →
      ∃ m, erspanConfigsLoop ipValid xs acc = .ok (some m) ∧ m ≠ "" := by
  intro xs
  induction xs with
  | nil =>
      rintro acc _ ⟨pre, c, post, habs, _⟩
      exact absurd habs (by simp)
  | cons c0 rest ih =>
      rintro acc hval ⟨pre, c, post, heq, a, ha, hpy⟩
      rw [erspanConfigsLoop_cons_valid ipValid c0 rest acc (hval c0 (by simp))]
      by_cases hany : acc.any (fun x => pyEq c0 x) = true
      · rw [hany]
        refine ⟨"Duplicate ERSPAN config " ++ pyStr c0, by simp,
          append_ne_empty _ _ (by decide)⟩
      · have hany2 : acc.any (fun x => pyEq c0 x) = false :=
          Bool.eq_false_iff.mpr hany
        rw [hany2]
        simp only [Bool.false_eq_true, if_false]
        apply ih (acc ++ [c0]) (fun d hd => hval d (by simp [hd]))
        cases pre with
        | nil =>
            injection heq with hc hr
            subst hc
            exact absurd (List.any_eq_true.mpr ⟨a, by simpa using ha, hpy⟩) hany
        | cons p pre2 =>
            injection heq with hc hr
            subst hc
            refine ⟨pre2, c, post, hr, a, ?_, hpy⟩
            simpa [List.append_assoc] using ha

/-- C4 counterexample: two entries that agree on dest_ip and flow_id, and
on direction once the schema default both is applied — i.e. equal as
(dest_ip, flow_id, direction) configurations — are not flagged: the
validator accepts the list because its duplicate test compares whole
dicts, and only one entry carries the direction key explicitly. -/
theorem C4_counterexample :
    _validate_erspan_configs validate_ip_address_v4
        (.list [.dict [("dest_ip", .str "1.1.1.1"), ("flow_id", .int 1)],
                .dict [("dest_ip", .str "1.1.1.1"), ("flow_id", .int 1),
                       ("direction", .str "both")]]) = .ok Option.none ∧
    (PyVal.dict [("dest_ip", .str "1.1.1.1"), ("flow_id", .int 1)]).pyGet
        ERSPAN_DEST_IP =
      (PyVal.dict [("dest_ip", .str "1.1.1.1"), ("flow_id", .int 1),
                   ("direction", .str "both")]).pyGet ERSPAN_DEST_IP ∧
    (PyVal.dict [("dest_ip", .str "1.1.1.1"), ("flow_id", .int 1)]).pyGet
        ERSPAN_FLOW_ID =
      (PyVal.dict [("dest_ip", .str "1.1.1.1"), ("flow_id", .int 1),
                   ("direction", .str "both")]).pyGet ERSPAN_FLOW_ID ∧
    (PyVal.dict [("dest_ip", .str "1.1.1.1"), ("flow_id", .int 1)]).pyGetD
        ERSPAN_DIRECTION (.str "both") =
      (PyVal.dict [("dest_ip", .str "1.1.1.1"), ("flow_id", .int 1),
                   ("direction", .str "both")]).pyGetD ERSPAN_DIRECTION
        (.str "both") :=
  ⟨rfl, rfl, rfl, rfl⟩

/-- C4 (amended): _validate_erspan_configs returns a nonempty message for
every non-list input; over lists of entries passing the per-entry checks,
it returns None when the entries are pairwise distinct as Python dicts,
and a nonempty message when some entry is equal — as a whole dict, not as
a (dest_ip, flow_id, direction) projection — to an earlier entry. -/
theorem C4_erspan_configs_amended (ipValid : PyVal → Option String)
    (data : PyVal) (xs : List PyVal) :
    ((∀ ys, data ≠ .list ys) →
      ∃ m, _validate_erspan_configs ipValid data = .ok (some m) ∧ m ≠ "") ∧
    ((∀ c ∈ xs, erspanEntryValid ipValid c = true) →
      xs.Pairwise (fun a b => pyEq b a = false) →
      _validate_erspan_configs ipValid (.list xs) = .ok Option.none) ∧
    ((∀ c ∈ xs, erspanEntryValid ipValid c = true) →
      (∃ pre c post, xs = pre ++ c :: post ∧ ∃ a ∈ pre, pyEq c a = true) →
      ∃ m, _validate_erspan_configs ipValid (.list xs) = .ok (some m) ∧ m ≠ "") := by
  refine ⟨?_, ?_, ?_⟩
  · intro hd
    cases data with
    | list ys => exact absurd rfl (hd ys)
    | none => exact ⟨_, rfl, append_ne_empty _ _ (by decide)⟩
    | bool b => exact ⟨_, rfl, append_ne_empty _ _ (by decide)⟩
    | int n => exact ⟨_, rfl, append_ne_empty _ _ (by decide)⟩
    | str s => exact ⟨_, rfl, append_ne_empty _ _ (by decide)⟩
    | dict kvs => exact ⟨_, rfl, append_ne_empty _ _ (by decide)⟩
  · intro hval hpw
    exact erspanConfigsLoop_ok_of_distinct ipValid xs [] hval (by simp) hpw
  · rintro hval ⟨pre, c, post, heq, a, ha, hpy⟩
    exact erspanConfigsLoop_dup ipValid xs [] hval
      ⟨pre, c, post, heq, a, by simpa using ha, hpy⟩

/-- C4 witness: the amended behavior at concrete inputs — a dict input is
rejected, a two-entry list of distinct valid configs is accepted, and a
list repeating the same dict twice is rejected as a duplicate. -/
theorem C4_amended_witness :
    (∃ m, _validate_erspan_configs validate_ip_address_v4 (.dict []) =
      .ok (some m) ∧ m ≠ "") ∧
    _validate_erspan_configs validate_ip_address_v4
        (.list [.dict [("dest_ip", .str "1.1.1.1"), ("flow_id", .int 1)],
                .dict [("dest_ip", .str "2.2.2.2"), ("flow_id", .int 2)]]) =
      .ok Option.none ∧
    (∃ m, _validate_erspan_configs validate_ip_address_v4
        (.list [.dict [("dest_ip", .str "1.1.1.1"), ("flow_id", .int 1)],
                .dict [("dest_ip", .str "1.1.1.1"), ("flow_id", .int 1)]]) =
      .ok (some m) ∧ m ≠ "") := by
  refine ⟨?_, ?_, ?_⟩
  · exact (C4_erspan_configs_amended validate_ip_address_v4 (.dict []) []).1
      (fun ys h => PyVal.noConfusion h)
  · exact (C4_erspan_configs_amended validate_ip_address_v4 PyVal.none
      [.dict [("dest_ip", .str "1.1.1.1"), ("flow_id", .int 1)],
       .dict [("dest_ip", .str "2.2.2.2"), ("flow_id", .int 2)]]).2.1
      (by decide)
      (by
        refine List.Pairwise.cons ?_ (List.pairwise_singleton _ _)
        intro b hb
        have hb2 : b = .dict [("dest_ip", .str "2.2.2.2"), ("flow_id", .int 2)] :=
          List.mem_singleton.mp hb
        subst hb2
        decide)
  · exact (C4_erspan_configs_amended validate_ip_address_v4 PyVal.none
      [.dict [("dest_ip", .str "1.1.1.1"), ("flow_id", .int 1)],
       .dict [("dest_ip", .str "1.1.1.1"), ("flow_id", .int 1)]]).2.2
      (by decide)
      ⟨[.dict [("dest_ip", .str "1.1.1.1"), ("flow_id", .int 1)]],
       .dict [("dest_ip", .str "1.1.1.1"), ("flow_id", .int 1)], [], rfl,
       .dict [("dest_ip", .str "1.1.1.1"), ("flow_id", .int 1)],
       by simp, by decide⟩
